import Mathlib

/-!
Shallow embedding of `src/app.py` of the visual-review repository: a FastAPI
gateway that lists changed PNG files of a GitHub pull request, proxies image
bytes through a three-tier fallback chain, and relays per-file review
comments.  Upstream HTTP interactions are modelled as explicit "world" values
handed to each endpoint function; Python exceptions raised inside a
`try` block are modelled with `Except`, and time (`time.time()`) is passed
explicitly as a rational number.  Each endpoint also returns the trace of
upstream calls it issued, each call tagged with the per-client timeout the
code configures, so that claims about which fetches are performed (and with
which timeout) are directly expressible.
-/

namespace VisualReview

/-- Model of the process-wide dict `_cache : dict[str, tuple[float, Any]]`
(`src/app.py` line 35), as a map from keys to `(timestamp, value)`. -/
def Cache (α : Type) : Type := String → Option (Rat × α)

/-- The empty cache (fresh process). -/
def emptyCache {α : Type} : Cache α := fun _ => none

/-- Translation of `_cache_get` (`src/app.py` lines 38-43): return the stored
value iff the key is present and `now - ts < ttl`, else `None`.  The current
time is an explicit argument. -/
def _cache_get {α : Type} (cache : Cache α) (now : Rat) (key : String) (ttl : Rat) : Option α :=
  match cache key with
  | some (ts, val) => if now - ts < ttl then some val else none
  | none => none

/-- Translation of `_cache_set` (`src/app.py` lines 46-47): unconditionally
store `(now, val)` under `key`. -/
def _cache_set {α : Type} (cache : Cache α) (now : Rat) (key : String) (val : α) : Cache α :=
  fun k => if k = key then some (now, val) else cache k

/-- The kind of an outbound GitHub API request issued by an endpoint. -/
inductive CallKind where
  | prMeta | compareRefs | contents | blob | download | commentsList | commentCreate
deriving DecidableEq, Repr

/-- One outbound upstream HTTP request, tagged with the timeout (in seconds)
of the `httpx.AsyncClient` that issued it. -/
structure Call where
  kind : CallKind
  timeout : Nat
deriving DecidableEq, Repr

/-- Outcome of one upstream JSON request, as seen by the endpoint code: the
request itself may raise a transport exception (`raise`), or it yields a
status code together with the outcome of parsing the body via `.json()`
(an `Except.error` means `.json()` raises when called). -/
inductive Upstream (β : Type) where
  | raise (msg : String)
  | resp (status : Nat) (body : Except String β)

/-- Outcome of one upstream raw request whose body is read with `.content`
(never raises once the response exists). -/
inductive RawUpstream where
  | raise (msg : String)
  | resp (status : Nat) (bytes : List Nat)
deriving DecidableEq, Repr

/-- Body of a `Response(...)` returned by a binary endpoint: either raw image
bytes or an encoded text message. -/
inductive RespContent where
  | raw (b : List Nat)
  | txt (s : String)
deriving DecidableEq, Repr

/-- Model of a FastAPI `Response` as built by `pr_image`: status code, media
type (`None` on the error responses) and body.  The `Cache-Control` header is
elided. -/
structure PyResponse where
  status : Nat
  media : Option String
  content : RespContent
deriving DecidableEq, Repr

/-- Parsed body of the contents-API response in `pr_image` (string-or-absent
JSON fields; `none` covers both a missing key and JSON `null`). -/
structure ContentDoc where
  encoding : Option String
  content : Option String
  sha : Option String
  download_url : Option String
deriving DecidableEq, Repr

/-- Parsed body of the blob-API response in `pr_image`. -/
structure BlobDoc where
  encoding : Option String
  content : Option String
deriving DecidableEq, Repr

/-- The upstream responses the world would serve to one `pr_image` request:
the contents fetch, the blob fetch (if issued) and the `download_url` fetch
(if issued). -/
structure ImageWorld where
  contentResp : Upstream ContentDoc
  blobResp : Upstream BlobDoc
  downloadResp : RawUpstream

/-- A 500 `Response` carrying the text of a caught exception
(`src/app.py` line 247). -/
def exc500 (msg : String) : PyResponse := { status := 500, media := none, content := .txt msg }

/-- Tier 3 of `pr_image` (`src/app.py` lines 224-243): if the contents
response carries a truthy `download_url`, fetch it following redirects and
return its raw bytes as-is on HTTP 200; otherwise (or if that fetch does not
return 200) answer 404 `Could not retrieve image`. -/
def pr_image_tier3 (w : ImageWorld) (data : ContentDoc) (calls : List Call) :
    PyResponse × List Call :=
  match data.download_url with
  | some u =>
    if u = "" then ({ status := 404, media := none, content := .txt "Could not retrieve image" }, calls)
    else
      match w.downloadResp with
      | .raise e => (exc500 e, calls ++ [⟨.download, 30⟩])
      | .resp st bs =>
        if st = 200 then
          ({ status := 200, media := some "image/png", content := .raw bs }, calls ++ [⟨.download, 30⟩])
        else
          ({ status := 404, media := none, content := .txt "Could not retrieve image" }, calls ++ [⟨.download, 30⟩])
  | none => ({ status := 404, media := none, content := .txt "Could not retrieve image" }, calls)

/-- Tier 2 of `pr_image` (`src/app.py` lines 207-222): if the contents
response carries a truthy blob `sha`, fetch the blob; on a 200 response whose
body carries `encoding == "base64"`, decode its `content` and return it as
`image/png`; every other blob outcome falls through to tier 3 — except a
transport exception or a body-access exception, which the outer handler turns
into a 500. -/
def pr_image_tier2 (w : ImageWorld) (data : ContentDoc)
    (b64decode : String → Option (List Nat)) (calls : List Call) :
    PyResponse × List Call :=
  match data.sha with
  | some s =>
    if s = "" then pr_image_tier3 w data calls
    else
      match w.blobResp with
      | .raise e => (exc500 e, calls ++ [⟨.blob, 30⟩])
      | .resp st body =>
        if st = 200 then
          match body with
          | .error e => (exc500 e, calls ++ [⟨.blob, 30⟩])
          | .ok bd =>
            if bd.encoding = some "base64" then
              match bd.content with
              | none => (exc500 "\x27content\x27", calls ++ [⟨.blob, 30⟩])
              | some cstr =>
                match b64decode cstr with
                | none => (exc500 "binascii.Error: Invalid base64-encoded string", calls ++ [⟨.blob, 30⟩])
                | some bs =>
                  ({ status := 200, media := some "image/png", content := .raw bs }, calls ++ [⟨.blob, 30⟩])
            else pr_image_tier3 w data (calls ++ [⟨.blob, 30⟩])
        else pr_image_tier3 w data (calls ++ [⟨.blob, 30⟩])
  | none => pr_image_tier3 w data calls

/-- Translation of the endpoint `pr_image` (`src/app.py` lines 164-247).
`base64.b64decode` is passed in as a function returning `none` when Python
would raise.  Besides the `Response`, the model returns the trace of upstream
calls issued, in order, each tagged with the client timeout (30 here). -/
def pr_image (token : String) (w : ImageWorld)
    (b64decode : String → Option (List Nat)) : PyResponse × List Call :=
  if token = "" then ({ status := 500, media := none, content := .txt "No GitHub token" }, [])
  else
    match w.contentResp with
    | .raise e => (exc500 e, [⟨.contents, 30⟩])
    | .resp st body =>
      if st ≠ 200 then
        ({ status := st, media := none,
           content := .txt ("GitHub API error: HTTP " ++ toString st) }, [⟨.contents, 30⟩])
      else
        match body with
        | .error e => (exc500 e, [⟨.contents, 30⟩])
        | .ok data =>
          if data.encoding = some "base64" then
            match data.content with
            | none => (exc500 "\x27content\x27", [⟨.contents, 30⟩])
            | some cstr =>
              match b64decode cstr with
              | none => (exc500 "binascii.Error: Invalid base64-encoded string", [⟨.contents, 30⟩])
              | some bs =>
                ({ status := 200, media := some "image/png", content := .raw bs }, [⟨.contents, 30⟩])
          else pr_image_tier2 w data b64decode [⟨.contents, 30⟩]

/-- One entry of the compare-API `files` list, as read by `pr_images`
(`f.get(...)` accesses; `none` covers a missing key). -/
structure FileEntry where
  filename : Option String
  status : Option String
  additions : Option Nat
  deletions : Option Nat
deriving DecidableEq, Repr

/-- One record of the `images` list built by `pr_images`
(`src/app.py` lines 144-149). -/
structure ImageRec where
  path : String
  status : String
  additions : Nat
  deletions : Nat
deriving DecidableEq, Repr

/-- The image record `pr_images` appends for one compare-file entry:
path from `filename`, status defaulting to `"modified"`, additions and
deletions defaulting to 0. -/
def mkImageRec (f : FileEntry) : ImageRec :=
  { path := f.filename.getD "", status := f.status.getD "modified",
    additions := f.additions.getD 0, deletions := f.deletions.getD 0 }

/-- Python `str.lower`, modelled character-wise on the string's character
list (ASCII lowering). -/
def pyLower (s : String) : List Char := s.data.map Char.toLower

/-- Python `str.endswith`, modelled as a suffix test on character lists. -/
def pyEndsWith (chars : List Char) (suffix : String) : Bool :=
  suffix.data.isSuffixOf chars

/-- The filter condition of `pr_images` (`src/app.py` line 143):
`filename.lower().endswith(".png")`, with `filename` defaulting to `""`. -/
def isPngEntry (f : FileEntry) : Bool :=
  pyEndsWith (pyLower (f.filename.getD "")) ".png"

/-- Translation of the `for f in files` loop of `pr_images`
(`src/app.py` lines 141-149): keep, in upstream order, one image record per
entry whose (defaulted) filename lowercases to a `.png` suffix. -/
def buildImages : List FileEntry → List ImageRec
  | [] => []
  | f :: rest =>
    if isPngEntry f then mkImageRec f :: buildImages rest
    else buildImages rest

/-- Parsed body of the PR-metadata response in `pr_images`
(`pr_data["base"]["sha"]` etc.; a `none` field means the required key is
missing, so the access raises `KeyError` inside the `try`). -/
structure PrDoc where
  base_sha : Option String
  base_label : Option String
  head_sha : Option String
  head_label : Option String
  title : Option String
  html_url : Option String
deriving DecidableEq, Repr

/-- Parsed body of the compare-API response (`compare_data.get("files", [])`). -/
structure CompareDoc where
  files : Option (List FileEntry)
deriving DecidableEq, Repr

/-- The upstream responses the world would serve to one `pr_images` request. -/
structure ImagesWorld where
  prResp : Upstream PrDoc
  compareResp : Upstream CompareDoc

/-- The fully-populated `result` dict that `pr_images` caches and returns on
its success path (`src/app.py` lines 93, 120-149). -/
structure ImagesResult where
  pr_number : Int
  images : List ImageRec
  base_ref : String
  head_ref : String
  base_label : String
  head_label : String
  pr_title : String
  pr_url : String
deriving DecidableEq, Repr

/-- Body of the JSON response of `pr_images`: either the result payload or
an error dict `\x7b"error": msg, "images": []\x7d`. -/
inductive ImagesAnswer where
  | ok (r : ImagesResult)
  | err (msg : String)
deriving DecidableEq, Repr

/-- Everything one `pr_images` invocation produces: the JSON answer, the
cache after the call, the trace of upstream calls, and whether the answer
was served from the cache (the early return at `src/app.py` lines 114-118). -/
structure ImagesRun where
  answer : ImagesAnswer
  cache : Cache ImagesResult
  calls : List Call
  fromCache : Bool

/-- The cache key of `pr_images` (`src/app.py` line 112):
`f"pr_images:\x7bgithub_repo\x7d:\x7bnumber\x7d:\x7bhead_ref\x7d"`. -/
def cacheKey (github_repo : String) (number : Int) (head_ref : String) : String :=
  "pr_images:" ++ github_repo ++ ":" ++ toString number ++ ":" ++ head_ref

/-- Translation of the endpoint `pr_images` (`src/app.py` lines 81-161).
The two metadata-class fetches run on a client constructed with
`timeout=30`.  Exceptions raised inside the `try` (transport errors,
`.json()` failures, `KeyError` on required fields — the latter flattened to
the message of the outermost missing key) are caught at line 151 and become
an error answer.  `_cache_set` at line 157 runs only when the `try` body
completed without returning, i.e. on the fresh success path. -/
def pr_images (token owner repo : String) (number : Int)
    (w : ImagesWorld) (cache : Cache ImagesResult) (now : Rat) : ImagesRun :=
  let github_repo := owner ++ "/" ++ repo
  if token = "" then ⟨.err "No GITHUB_TOKEN configured", cache, [], false⟩
  else
    match w.prResp with
    | .raise e => ⟨.err e, cache, [⟨.prMeta, 30⟩], false⟩
    | .resp st body =>
      if st ≠ 200 then
        ⟨.err ("PR not found: HTTP " ++ toString st), cache, [⟨.prMeta, 30⟩], false⟩
      else
        match body with
        | .error e => ⟨.err e, cache, [⟨.prMeta, 30⟩], false⟩
        | .ok pd =>
          match pd.base_sha with
          | none => ⟨.err "\x27base\x27", cache, [⟨.prMeta, 30⟩], false⟩
          | some base_ref =>
            match pd.head_sha with
            | none => ⟨.err "\x27head\x27", cache, [⟨.prMeta, 30⟩], false⟩
            | some head_ref =>
              let key := cacheKey github_repo number head_ref
              match _cache_get cache now key 120 with
              | some cached => ⟨.ok cached, cache, [⟨.prMeta, 30⟩], true⟩
              | none =>
                match pd.base_label with
                | none => ⟨.err "\x27label\x27", cache, [⟨.prMeta, 30⟩], false⟩
                | some base_label =>
                  match pd.head_label with
                  | none => ⟨.err "\x27label\x27", cache, [⟨.prMeta, 30⟩], false⟩
                  | some head_label =>
                    match pd.title with
                    | none => ⟨.err "\x27title\x27", cache, [⟨.prMeta, 30⟩], false⟩
                    | some pr_title =>
                      match pd.html_url with
                      | none => ⟨.err "\x27html_url\x27", cache, [⟨.prMeta, 30⟩], false⟩
                      | some pr_url =>
                        match w.compareResp with
                        | .raise e => ⟨.err e, cache, [⟨.prMeta, 30⟩, ⟨.compareRefs, 30⟩], false⟩
                        | .resp cst cbody =>
                          if cst ≠ 200 then
                            ⟨.err ("Compare failed: HTTP " ++ toString cst), cache,
                             [⟨.prMeta, 30⟩, ⟨.compareRefs, 30⟩], false⟩
                          else
                            match cbody with
                            | .error e => ⟨.err e, cache, [⟨.prMeta, 30⟩, ⟨.compareRefs, 30⟩], false⟩
                            | .ok cd =>
                              let result : ImagesResult :=
                                { pr_number := number, images := buildImages (cd.files.getD []),
                                  base_ref := base_ref, head_ref := head_ref,
                                  base_label := base_label, head_label := head_label,
                                  pr_title := pr_title, pr_url := pr_url }
                              ⟨.ok result, _cache_set cache now key result,
                               [⟨.prMeta, 30⟩, ⟨.compareRefs, 30⟩], false⟩

/-- One element of the PR review-comments list, as read by `pr_comments` and
`pr_comment_counts` (`c["user"]["login"]` flattened to one field; `none`
means the key is missing, so a `[]` access raises `KeyError` inside the
`try`). -/
structure CommentDoc where
  id : Option Int
  body : Option String
  user_login : Option String
  created_at : Option String
  updated_at : Option String
  path : Option String
  html_url : Option String
deriving DecidableEq, Repr

/-- One entry of the `comments` list returned by `pr_comments`
(`src/app.py` lines 277-284). -/
structure FileComment where
  id : Int
  body : String
  user : String
  created_at : String
  updated_at : Option String
  html_url : String
deriving DecidableEq, Repr

/-- Body of the JSON response of `pr_comments`: the comments list, or an
error dict `\x7b"error": msg, "comments": []\x7d`. -/
inductive CommentsAnswer where
  | ok (cs : List FileComment)
  | err (msg : String)
deriving DecidableEq, Repr

/-- Translation of the `for c in all_comments` loop of `pr_comments`
(`src/app.py` lines 274-284): keep the comments whose `path` equals the
requested path exactly, building each entry from its required fields
(a missing required key raises `KeyError`, modelled as `Except.error`). -/
def collectFileComments (pathQuery : String) : List CommentDoc → Except String (List FileComment)
  | [] => .ok []
  | c :: rest =>
    if c.path = some pathQuery then
      match c.id, c.body, c.user_login, c.created_at with
      | some i, some b, some u, some cr =>
        (collectFileComments pathQuery rest).map
          (fun tail => ⟨i, b, u, cr, c.updated_at, c.html_url.getD ""⟩ :: tail)
      | _, _, _, _ => .error "KeyError"
    else collectFileComments pathQuery rest

/-- Translation of the endpoint `pr_comments` (`src/app.py` lines 250-289).
Its client is constructed with `timeout=15`. -/
def pr_comments (token pathQuery : String) (w : Upstream (List CommentDoc)) :
    CommentsAnswer × List Call :=
  if token = "" then (.err "No GITHUB_TOKEN configured", [])
  else
    match w with
    | .raise e => (.err e, [⟨.commentsList, 15⟩])
    | .resp st body =>
      if st ≠ 200 then (.err ("HTTP " ++ toString st), [⟨.commentsList, 15⟩])
      else
        match body with
        | .error e => (.err e, [⟨.commentsList, 15⟩])
        | .ok cs =>
          match collectFileComments pathQuery cs with
          | .error e => (.err e, [⟨.commentsList, 15⟩])
          | .ok fcs => (.ok fcs, [⟨.commentsList, 15⟩])

/-- One step of the tally dict of `pr_comment_counts`
(`counts[p] = counts.get(p, 0) + 1`), on an insertion-ordered association
list mirroring a Python dict. -/
def bumpCount (m : List (String × Nat)) (p : String) : List (String × Nat) :=
  if m.any (fun e => e.1 == p) then
    m.map (fun e => if e.1 == p then (e.1, e.2 + 1) else e)
  else m ++ [(p, 1)]

/-- The tally loop of `pr_comment_counts` (`src/app.py` lines 312-316):
`p = c.get("path", "")`, skipped when falsy (absent, null or empty). -/
def tallyCounts (cs : List CommentDoc) : List (String × Nat) :=
  cs.foldl
    (fun m c =>
      match c.path with
      | some p => if p = "" then m else bumpCount m p
      | none => m)
    []

/-- Translation of the endpoint `pr_comment_counts`
(`src/app.py` lines 292-321).  Every return statement of the source function
has the shape `\x7b"counts": ...\x7d` with no error field, so the answer type
is the counts mapping itself.  Its client is constructed with `timeout=15`. -/
def pr_comment_counts (token : String) (w : Upstream (List CommentDoc)) :
    List (String × Nat) × List Call :=
  if token = "" then ([], [])
  else
    match w with
    | .raise _ => ([], [⟨.commentsList, 15⟩])
    | .resp st body =>
      if st ≠ 200 then ([], [⟨.commentsList, 15⟩])
      else
        match body with
        | .error _ => ([], [⟨.commentsList, 15⟩])
        | .ok cs => (tallyCounts cs, [⟨.commentsList, 15⟩])

/-- A Python JSON value, as returned by `await request.json()`. -/
inductive JVal where
  | jnull
  | jbool (b : Bool)
  | jnum (n : Int)
  | jstr (s : String)
  | jarr (elems : List JVal)
  | jobj (fields : List (String × JVal))

/-- The Python type name of a JSON value, for `AttributeError` messages. -/
def pyTypeName : JVal → String
  | .jnull => "NoneType"
  | .jbool _ => "bool"
  | .jnum _ => "int"
  | .jstr _ => "str"
  | .jarr _ => "list"
  | .jobj _ => "dict"

/-- Python `payload.get(key, default)`: only a dict has `.get`; on any other
value the attribute access raises `AttributeError`. -/
def pyGet (v : JVal) (key : String) (dflt : JVal) : Except String JVal :=
  match v with
  | .jobj fields => .ok ((fields.lookup key).getD dflt)
  | _ => .error ("\x27" ++ pyTypeName v ++ "\x27 object has no attribute \x27get\x27")

/-- Python `value.strip()`: only a string has `.strip`; on any other value
the attribute access raises `AttributeError`. -/
def pyStrip (v : JVal) : Except String String :=
  match v with
  | .jstr s => .ok s.trim
  | _ => .error ("\x27" ++ pyTypeName v ++ "\x27 object has no attribute \x27strip\x27")

/-- Parsed body of the PR-metadata response in `post_pr_comment`
(only `pr_data["head"]["sha"]` is read). -/
structure PrHeadDoc where
  head_sha : Option String
deriving DecidableEq, Repr

/-- Parsed body of a created review comment, as read by `post_pr_comment`
(`src/app.py` lines 369-379). -/
structure CreatedDoc where
  id : Option Int
  body : Option String
  user_login : Option String
  created_at : Option String
  html_url : Option String
deriving DecidableEq, Repr

/-- The public fields of the created comment that `post_pr_comment`
returns. -/
structure CreatedComment where
  id : Int
  body : String
  user : String
  created_at : String
  html_url : String
deriving DecidableEq, Repr

/-- The upstream responses the world would serve to one `post_pr_comment`
request: the PR-metadata fetch, the comment-creation POST, and the value of
`comment_resp.text` used in the non-2xx branch. -/
structure PostWorld where
  prResp : Upstream PrHeadDoc
  commentResp : Upstream CreatedDoc
  commentText : String

/-- Outcome of `post_pr_comment`: a JSON error dict, the success payload, or
an exception that escaped the endpoint to the transport layer (the
`payload.get(...).strip()` lines at `src/app.py` 337-338 are outside every
`try` block). -/
inductive PostAnswer where
  | errJson (msg : String)
  | ok (c : CreatedComment)
  | crash (msg : String)
deriving Repr

/-- Translation of the endpoint `post_pr_comment`
(`src/app.py` lines 324-385).  `payload` is the outcome of
`await request.json()` (its `try` turns a parse failure into an error dict);
the subsequent `.get`/`.strip` accesses are uncaught, so their
`AttributeError` is modelled as `PostAnswer.crash`.  Its client is
constructed with `timeout=15`. -/
def post_pr_comment (token : String) (payload : Except String JVal) (w : PostWorld) :
    PostAnswer × List Call :=
  if token = "" then (.errJson "No GITHUB_TOKEN configured", [])
  else
    match payload with
    | .error _ => (.errJson "Invalid JSON body", [])
    | .ok pl =>
      match pyGet pl "path" (.jstr "") with
      | .error e => (.crash e, [])
      | .ok pathVal =>
        match pyStrip pathVal with
        | .error e => (.crash e, [])
        | .ok file_path =>
          match pyGet pl "body" (.jstr "") with
          | .error e => (.crash e, [])
          | .ok bodyVal =>
            match pyStrip bodyVal with
            | .error e => (.crash e, [])
            | .ok comment_body =>
              if file_path = "" ∨ comment_body = "" then
                (.errJson "Both \x27path\x27 and \x27body\x27 are required", [])
              else
                match w.prResp with
                | .raise e => (.errJson e, [⟨.prMeta, 15⟩])
                | .resp st body =>
                  if st ≠ 200 then
                    (.errJson ("PR not found: HTTP " ++ toString st), [⟨.prMeta, 15⟩])
                  else
                    match body with
                    | .error e => (.errJson e, [⟨.prMeta, 15⟩])
                    | .ok pd =>
                      match pd.head_sha with
                      | none => (.errJson "\x27head\x27", [⟨.prMeta, 15⟩])
                      | some _head_sha =>
                        match w.commentResp with
                        | .raise e => (.errJson e, [⟨.prMeta, 15⟩, ⟨.commentCreate, 15⟩])
                        | .resp cst cbody =>
                          if cst = 200 ∨ cst = 201 then
                            match cbody with
                            | .error e => (.errJson e, [⟨.prMeta, 15⟩, ⟨.commentCreate, 15⟩])
                            | .ok cd =>
                              match cd.id, cd.body, cd.user_login, cd.created_at with
                              | some i, some b, some u, some cr =>
                                (.ok ⟨i, b, u, cr, cd.html_url.getD ""⟩,
                                 [⟨.prMeta, 15⟩, ⟨.commentCreate, 15⟩])
                              | _, _, _, _ =>
                                (.errJson "KeyError", [⟨.prMeta, 15⟩, ⟨.commentCreate, 15⟩])
                          else
                            (.errJson ("GitHub API error: HTTP " ++ toString cst ++ ": " ++
                               w.commentText), [⟨.prMeta, 15⟩, ⟨.commentCreate, 15⟩])

/-- The blob tier falls through to the redirect tier (rather than returning
bytes or raising): the blob response exists but has a non-200 status, or has
a 200 status with a parsed body whose encoding marker is not `"base64"`. -/
def blobFallsThrough (w : ImageWorld) : Prop :=
  match w.blobResp with
  | .raise _ => False
  | .resp st body =>
    st ≠ 200 ∨
      match body with
      | .error _ => False
      | .ok bd => bd.encoding ≠ some "base64"

end VisualReview

namespace VisualReview

/-- C3: cache get/set semantics of `_cache_get` / `_cache_set`
(`src/app.py` lines 38-47).  (i) `_cache_get` returns the stored value iff an
entry exists for the key and `now - ts < ttl`, the ttl being the one supplied
by that call; (ii) `_cache_set` unconditionally overwrites the entry with the
current time and the given value; (iii) immediately after a set (zero elapsed
time), a get with any positive ttl returns the value; (iv) once at least ttl
time has elapsed since the set, the get returns none. -/
theorem cache_get_set_spec :
    (∀ (α : Type) (c : Cache α) (now : Rat) (k : String) (ttl : Rat) (v : α),
      _cache_get c now k ttl = some v ↔
        ∃ ts : Rat, c k = some (ts, v) ∧ now - ts < ttl) ∧
    (∀ (α : Type) (c : Cache α) (now : Rat) (k : String) (v : α),
      (_cache_set c now k v) k = some (now, v)) ∧
    (∀ (α : Type) (c : Cache α) (now : Rat) (k : String) (ttl : Rat) (v : α),
      0 < ttl → _cache_get (_cache_set c now k v) now k ttl = some v) ∧
    (∀ (α : Type) (c : Cache α) (tset tget : Rat) (k : String) (ttl : Rat) (v : α),
      ttl ≤ tget - tset → _cache_get (_cache_set c tset k v) tget k ttl = none) := by
  refine ⟨?_, ?_, ?_, ?_⟩
  · intro α c now k ttl v
    unfold _cache_get
    cases hc : c k with
    | none => simp
    | some p =>
      obtain ⟨ts, val⟩ := p
      by_cases hfresh : now - ts < ttl
      · simp only [hfresh, if_true]
        constructor
        · intro h
          exact ⟨ts, by simp [Option.some_inj.mp h], hfresh⟩
        · rintro ⟨ts1, h1, _⟩
          obtain ⟨rfl, rfl⟩ := Prod.mk.injEq .. ▸ Option.some_inj.mp h1
          rfl
      · simp [hfresh]
        intro _
        exact not_lt.mp hfresh
  · intro α c now k v
    unfold _cache_set
    simp
  · intro α c now k ttl v hpos
    unfold _cache_get _cache_set
    simp [sub_self, hpos]
  · intro α c tset tget k ttl v hel
    unfold _cache_get _cache_set
    simp [not_lt.mpr hel]

/-- Witness for C3: concrete instantiations of each conjunct of
`cache_get_set_spec` at an empty cache, key `"k"`, value `42`. -/
theorem cache_get_set_spec_witness :
    _cache_get (_cache_set (emptyCache (α := Nat)) 0 "k" 42) 0 "k" 120 = some 42 ∧
    _cache_get (_cache_set (emptyCache (α := Nat)) 0 "k" 42) 120 "k" 120 = none := by
  exact ⟨cache_get_set_spec.2.2.1 Nat emptyCache 0 "k" 120 42 (by norm_num),
         cache_get_set_spec.2.2.2 Nat emptyCache 0 120 "k" 120 42 (by norm_num)⟩

/-- The 404 response `Could not retrieve image` (`src/app.py` line 243). -/
def notRetrievableResp : PyResponse :=
  { status := 404, media := none, content := .txt "Could not retrieve image" }

/-- A successful image response (`src/app.py` lines 201-205 and analogues). -/
def imageResp (bs : List Nat) : PyResponse :=
  { status := 200, media := some "image/png", content := .raw bs }

/-- The redirect tier returns the fetched bytes as-is when the contents
response carries a truthy `download_url` and its fetch answers HTTP 200. -/
theorem tier3_success (w : ImageWorld) (data : ContentDoc) (calls : List Call)
    (u : String) (bs : List Nat)
    (hu : data.download_url = some u) (hne : u ≠ "")
    (hdr : w.downloadResp = .resp 200 bs) :
    pr_image_tier3 w data calls = (imageResp bs, calls ++ [⟨.download, 30⟩]) := by
  simp [pr_image_tier3, imageResp, hu, hdr, hne]

/-- The redirect tier answers 404 when the `download_url` is absent or empty,
or its fetch answers a non-200 status. -/
theorem tier3_fail (w : ImageWorld) (data : ContentDoc) (calls : List Call)
    (hdl : data.download_url = none ∨ data.download_url = some "" ∨
      ∃ u st bs, data.download_url = some u ∧ u ≠ "" ∧
        w.downloadResp = .resp st bs ∧ st ≠ 200) :
    (pr_image_tier3 w data calls).1 = notRetrievableResp := by
  rcases hdl with h | h | ⟨u, st, bs, hu, hne, hdr, hst⟩
  · simp [pr_image_tier3, notRetrievableResp, h]
  · simp [pr_image_tier3, notRetrievableResp, h]
  · simp [pr_image_tier3, notRetrievableResp, hu, hne, hdr, hst]

/-- The blob tier hands control to the redirect tier when the contents
response has no truthy blob sha, or the blob fetch falls through. -/
theorem tier2_falls (w : ImageWorld) (data : ContentDoc)
    (b64decode : String → Option (List Nat)) (calls : List Call)
    (hsha : data.sha = none ∨ data.sha = some "" ∨
      (∃ s, data.sha = some s ∧ s ≠ "" ∧ blobFallsThrough w)) :
    ∃ calls2, pr_image_tier2 w data b64decode calls = pr_image_tier3 w data calls2 := by
  rcases hsha with h | h | ⟨s, hs, hne, hfall⟩
  · exact ⟨calls, by simp [pr_image_tier2, h]⟩
  · exact ⟨calls, by simp [pr_image_tier2, h]⟩
  · unfold blobFallsThrough at hfall
    cases hbr : w.blobResp with
    | raise e => rw [hbr] at hfall; exact absurd hfall (by simp)
    | resp st body =>
      rw [hbr] at hfall
      simp only [] at hfall
      by_cases hst : st = 200
      · subst hst
        cases body with
        | error e => simp at hfall
        | ok bd =>
          refine ⟨calls ++ [⟨.blob, 30⟩], ?_⟩
          have henc : bd.encoding ≠ some "base64" := by
            rcases hfall with h | h
            · exact absurd rfl h
            · exact h
          simp [pr_image_tier2, hs, hne, hbr, henc]
      · exact ⟨calls ++ [⟨.blob, 30⟩], by simp [pr_image_tier2, hs, hne, hbr, hst]⟩

/-- C1: the three retrieval tiers of `pr_image` run in strict order, each
later tier only when the prior one produced no bytes (`src/app.py` lines
196-237).  (i) If the contents response carries `encoding == "base64"`, the
decoded bytes are returned as `image/png` and the call trace shows neither a
blob nor a download fetch.  (ii) Otherwise, if it carries a truthy blob sha
and the blob fetch answers 200 with base64-encoded content, the decoded blob
bytes are returned and the trace shows no download fetch.  (iii) Otherwise,
if the blob tier was skipped or fell through and a truthy `download_url`
fetch answers 200, its raw bytes are returned as-is, undecoded. -/
theorem pr_image_tier_order :
    (∀ (token : String) (w : ImageWorld) (b64decode : String → Option (List Nat))
       (data : ContentDoc) (cstr : String) (bs : List Nat),
      token ≠ "" →
      w.contentResp = .resp 200 (.ok data) →
      data.encoding = some "base64" →
      data.content = some cstr →
      b64decode cstr = some bs →
      pr_image token w b64decode = (imageResp bs, [⟨.contents, 30⟩])) ∧
    (∀ (token : String) (w : ImageWorld) (b64decode : String → Option (List Nat))
       (data : ContentDoc) (s cstr : String) (bd : BlobDoc) (bs : List Nat),
      token ≠ "" →
      w.contentResp = .resp 200 (.ok data) →
      data.encoding ≠ some "base64" →
      data.sha = some s → s ≠ "" →
      w.blobResp = .resp 200 (.ok bd) →
      bd.encoding = some "base64" →
      bd.content = some cstr →
      b64decode cstr = some bs →
      pr_image token w b64decode = (imageResp bs, [⟨.contents, 30⟩, ⟨.blob, 30⟩])) ∧
    (∀ (token : String) (w : ImageWorld) (b64decode : String → Option (List Nat))
       (data : ContentDoc) (u : String) (bs : List Nat),
      token ≠ "" →
      w.contentResp = .resp 200 (.ok data) →
      data.encoding ≠ some "base64" →
      (data.sha = none ∨ data.sha = some "" ∨
        (∃ s, data.sha = some s ∧ s ≠ "" ∧ blobFallsThrough w)) →
      data.download_url = some u → u ≠ "" →
      w.downloadResp = .resp 200 bs →
      (pr_image token w b64decode).1 = imageResp bs) := by
  refine ⟨?_, ?_, ?_⟩
  · intro token w b64decode data cstr bs htok hcr henc hcontent hb64
    simp [pr_image, imageResp, htok, hcr, henc, hcontent, hb64]
  · intro token w b64decode data s cstr bd bs htok hcr henc hsha hs hbr hbenc hbc hb64
    simp [pr_image, pr_image_tier2, imageResp, htok, hcr, henc, hsha, hs, hbr, hbenc, hbc, hb64]
  · intro token w b64decode data u bs htok hcr henc hsha hu hune hdr
    obtain ⟨calls2, h2⟩ := tier2_falls w data b64decode [⟨.contents, 30⟩] hsha
    have h3 := tier3_success w data calls2 u bs hu hune hdr
    simp [pr_image, htok, hcr, henc, h2, h3]

/-- Witness for C1: concrete worlds exercising each of the three tiers. -/
theorem pr_image_tier_order_witness :
    pr_image "t"
        ⟨.resp 200 (.ok ⟨some "base64", some "QQ==", some "sha1", some "u"⟩), .raise "x", .raise "y"⟩
        (fun _ => some [65]) = (imageResp [65], [⟨.contents, 30⟩]) ∧
    pr_image "t"
        ⟨.resp 200 (.ok ⟨none, none, some "sha1", some "u"⟩),
         .resp 200 (.ok ⟨some "base64", some "QQ==" ⟩), .raise "y"⟩
        (fun _ => some [66]) = (imageResp [66], [⟨.contents, 30⟩, ⟨.blob, 30⟩]) ∧
    (pr_image "t"
        ⟨.resp 200 (.ok ⟨none, none, none, some "u"⟩), .raise "x", .resp 200 [1, 2, 3]⟩
        (fun _ => none)).1 = imageResp [1, 2, 3] := by
  refine ⟨?_, ?_, ?_⟩
  · exact pr_image_tier_order.1 "t" _ _ _ "QQ==" [65] (by decide) rfl rfl rfl rfl
  · exact pr_image_tier_order.2.1 "t" _ _ _ "sha1" "QQ==" _ [66]
      (by decide) rfl (by decide) rfl (by decide) rfl rfl rfl rfl
  · exact pr_image_tier_order.2.2 "t" _ _ _ "u" [1, 2, 3]
      (by decide) rfl (by decide) (Or.inl rfl) rfl (by decide) rfl

/-- C6: when the initial contents request of `pr_image` answers a non-200
status, the endpoint fails immediately with that same status code and issues
neither the blob fetch nor the download fetch (`src/app.py` lines 186-194). -/
theorem pr_image_upstream_status (token : String) (w : ImageWorld)
    (b64decode : String → Option (List Nat)) (st : Nat) (body : Except String ContentDoc)
    (htok : token ≠ "") (hcr : w.contentResp = .resp st body) (hst : st ≠ 200) :
    pr_image token w b64decode =
      ({ status := st, media := none,
         content := .txt ("GitHub API error: HTTP " ++ toString st) }, [⟨.contents, 30⟩]) := by
  simp [pr_image, htok, hcr, hst]

/-- Witness for C6: a 404 from the contents API is passed through. -/
theorem pr_image_upstream_status_witness :
    pr_image "t" ⟨.resp 404 (.ok ⟨none, none, none, none⟩), .raise "x", .raise "y"⟩ (fun _ => none) =
      ({ status := 404, media := none,
         content := .txt ("GitHub API error: HTTP " ++ toString 404) }, [⟨.contents, 30⟩]) := by
  exact pr_image_upstream_status "t" _ _ 404 _ (by decide) rfl (by decide)

/-- C7: when the contents request succeeds but no tier produces bytes — no
inline base64 content, no blob yielding base64 content, no successful
download fetch — `pr_image` answers the 404 response `Could not retrieve
image` rather than raising (`src/app.py` lines 239-243). -/
theorem pr_image_not_retrievable (token : String) (w : ImageWorld)
    (b64decode : String → Option (List Nat)) (data : ContentDoc)
    (htok : token ≠ "")
    (hcr : w.contentResp = .resp 200 (.ok data))
    (henc : data.encoding ≠ some "base64")
    (hsha : data.sha = none ∨ data.sha = some "" ∨
      (∃ s, data.sha = some s ∧ s ≠ "" ∧ blobFallsThrough w))
    (hdl : data.download_url = none ∨ data.download_url = some "" ∨
      ∃ u st bs, data.download_url = some u ∧ u ≠ "" ∧
        w.downloadResp = .resp st bs ∧ st ≠ 200) :
    (pr_image token w b64decode).1 = notRetrievableResp := by
  obtain ⟨calls2, h2⟩ := tier2_falls w data b64decode [⟨.contents, 30⟩] hsha
  have h3 := tier3_fail w data calls2 hdl
  simp [pr_image, htok, hcr, henc, h2, h3]

/-- Witness for C7: no inline content, a blob fetch that answers 404, a
download fetch that answers 403 — the endpoint answers 404, not a 500. -/
theorem pr_image_not_retrievable_witness :
    (pr_image "t"
        ⟨.resp 200 (.ok ⟨none, none, some "sha1", some "u"⟩),
         .resp 404 (.ok ⟨none, none⟩), .resp 403 [9]⟩
        (fun _ => none)).1 = notRetrievableResp := by
  exact pr_image_not_retrievable "t" _ _ _ (by decide) rfl (by decide)
    (Or.inr (Or.inr ⟨"sha1", rfl, by decide, by simp [blobFallsThrough]⟩))
    (Or.inr (Or.inr ⟨"u", 403, [9], rfl, by decide, rfl, by decide⟩))

/-- C5: the compare-file loop of `pr_images` keeps exactly the entries whose
filename ends in `.png` case-insensitively, in upstream order, building each
record with the path, the status defaulting to `"modified"`, and
additions/deletions defaulting to 0 (`src/app.py` lines 141-149); on
`["x.png", "y.py", "z.PNG"]` it yields paths `["x.png", "z.PNG"]`, count 2. -/
theorem pr_images_png_filter :
    (∀ files : List FileEntry,
      buildImages files = (files.filter isPngEntry).map mkImageRec) ∧
    buildImages
        [⟨some "x.png", none, none, none⟩, ⟨some "y.py", none, none, none⟩,
         ⟨some "z.PNG", none, none, none⟩] =
      [⟨"x.png", "modified", 0, 0⟩, ⟨"z.PNG", "modified", 0, 0⟩] ∧
    ([⟨some "x.png", none, none, none⟩, ⟨some "y.py", none, none, none⟩,
      (⟨some "z.PNG", none, none, none⟩ : FileEntry)].filter isPngEntry).length = 2 := by
  refine ⟨?_, by decide, by decide⟩
  intro files
  induction files with
  | nil => rfl
  | cons f rest ih =>
    by_cases h : isPngEntry f <;> simp [buildImages, List.filter_cons, h, ih]

/-- Appending to a fixed prefix is injective on strings. -/
theorem string_append_left_cancel (p a b : String) (h : p ++ a = p ++ b) : a = b := by
  have hd : p.data ++ a.data = p.data ++ b.data := by
    have hc := congrArg String.data h
    simpa [String.data_append] using hc
  have hab : a.data = b.data := List.append_cancel_left hd
  cases a
  cases b
  exact congrArg String.mk hab

/-- For a fixed repo and PR number, the cache key determines the head sha. -/
theorem cacheKey_head_inj (g : String) (n : Int) (h h2 : String)
    (heq : cacheKey g n h = cacheKey g n h2) : h = h2 :=
  string_append_left_cancel ("pr_images:" ++ g ++ ":" ++ toString n ++ ":") h h2 heq

/-- C2: the `pr_images` cache key includes the current head sha
(`src/app.py` line 112), so (i) for a fixed repo and PR number, distinct head
shas give distinct keys, and (ii) a run whose PR metadata reports head sha
`h2` never serves a cache entry that was stored under head sha `h1 ≠ h2`
(for example after a force-push), even when that entry is younger than the
120-second ttl: its `fromCache` flag is false. -/
theorem pr_images_cache_exact_head :
    (∀ (g : String) (n : Int) (h h2 : String),
      h ≠ h2 → cacheKey g n h ≠ cacheKey g n h2) ∧
    (∀ (token owner repo : String) (n : Int) (w : ImagesWorld)
       (now ts : Rat) (v : ImagesResult) (st : Nat) (pd : PrDoc) (h1 h2 : String),
      w.prResp = .resp st (.ok pd) →
      pd.head_sha = some h2 →
      h1 ≠ h2 →
      (pr_images token owner repo n w
        (_cache_set emptyCache ts (cacheKey (owner ++ "/" ++ repo) n h1) v) now).fromCache =
        false) := by
  constructor
  · intro g n h h2 hne heq
    exact hne (cacheKey_head_inj g n h h2 heq)
  · intro token owner repo n w now ts v st pd h1 h2 hw hhead hne
    have hkey : cacheKey (owner ++ "/" ++ repo) n h2 ≠ cacheKey (owner ++ "/" ++ repo) n h1 :=
      fun hcontra => hne (cacheKey_head_inj _ _ _ _ hcontra).symm
    have hmiss :
        _cache_get (_cache_set emptyCache ts (cacheKey (owner ++ "/" ++ repo) n h1) v)
          now (cacheKey (owner ++ "/" ++ repo) n h2) 120 = none := by
      unfold _cache_get _cache_set emptyCache
      simp [hkey]
    by_cases htok : token = ""
    · simp [pr_images, htok]
    · obtain ⟨pr, cr⟩ := w
      obtain ⟨bsha, blab, hsha, hlab, tit, hurl⟩ := pd
      have hw2 : pr = .resp st (.ok ⟨bsha, blab, hsha, hlab, tit, hurl⟩) := hw
      subst hw2
      have hh2 : hsha = some h2 := hhead
      subst hh2
      by_cases hst : st = 200
      · subst hst
        cases bsha with
        | none => simp [pr_images, htok]
        | some b =>
          simp only [pr_images, htok, if_false, ite_false, ne_eq, not_true_eq_false,
            reduceIte, hmiss]
          cases blab <;> cases hlab <;> cases tit <;> cases hurl <;>
            first
            | rfl
            | (rcases cr with e | ⟨cst, cbody⟩
               · rfl
               · by_cases hcst : cst = 200
                 · subst hcst
                   cases cbody <;> simp
                 · simp [hcst])
      · simp [pr_images, htok, hst]

/-- Witness for C2: a concrete run after a simulated force-push (cache entry
stored for head `old`, world reporting head `bbb`) is not served from
the cache. -/
theorem pr_images_cache_exact_head_witness :
    (pr_images "t" "o" "r" 1
      ⟨.resp 200 (.ok ⟨some "aaa", some "bl", some "bbb", some "hl", some "ti", some "u"⟩),
       .resp 200 (.ok ⟨some []⟩)⟩
      (_cache_set emptyCache 0 (cacheKey ("o" ++ "/" ++ "r") 1 "old")
        ⟨1, [], "aaa", "old", "bl", "hl", "ti", "u"⟩) 0).fromCache = false := by
  exact pr_images_cache_exact_head.2 "t" "o" "r" 1 _ 0 0 _ 200 _ "old" "bbb"
    rfl rfl (by decide)

/-- C4 (evaluating the code at the failing input): with a token configured,
a request body that is valid JSON but not an object — here the number `5` —
makes `post_pr_comment` raise `AttributeError` at the uncaught
`payload.get("path", "").strip()` (`src/app.py` line 337), so the exception
escapes the endpoint to the transport layer instead of yielding a structured
error; likewise an object whose `path` field is not a string crashes at the
uncaught `.strip()`. -/
theorem post_pr_comment_nonobject_body_crashes :
    (post_pr_comment "t" (.ok (.jnum 5)) ⟨.raise "x", .raise "y", ""⟩).1 =
      .crash "\x27int\x27 object has no attribute \x27get\x27" ∧
    (post_pr_comment "t" (.ok (.jobj [("path", .jnum 7), ("body", .jstr "hi")]))
        ⟨.raise "x", .raise "y", ""⟩).1 =
      .crash "\x27int\x27 object has no attribute \x27strip\x27" := by
  exact ⟨rfl, rfl⟩

/-- C8: with no credential configured (empty `GITHUB_TOKEN`, which is falsy
in Python), every endpoint returns its structured not-configured response
and issues zero upstream calls, for every world, cache and clock. -/
theorem no_token_soft_fail :
    (∀ (owner repo : String) (n : Int) (w : ImagesWorld) (cache : Cache ImagesResult)
       (now : Rat),
      pr_images "" owner repo n w cache now =
        ⟨.err "No GITHUB_TOKEN configured", cache, [], false⟩) ∧
    (∀ (w : ImageWorld) (b64decode : String → Option (List Nat)),
      pr_image "" w b64decode =
        ({ status := 500, media := none, content := .txt "No GitHub token" }, [])) ∧
    (∀ (pathQuery : String) (w : Upstream (List CommentDoc)),
      pr_comments "" pathQuery w = (.err "No GITHUB_TOKEN configured", [])) ∧
    (∀ w : Upstream (List CommentDoc), pr_comment_counts "" w = ([], [])) ∧
    (∀ (payload : Except String JVal) (w : PostWorld),
      post_pr_comment "" payload w = (.errJson "No GITHUB_TOKEN configured", [])) := by
  exact ⟨fun _ _ _ _ _ _ => rfl, fun _ _ => rfl, fun _ _ => rfl, fun _ => rfl, fun _ _ => rfl⟩

/-- C9 (counterexample): a fully successful `pr_images` run issues its
PR-metadata fetch — a metadata-class call — with timeout 30, not the 15
seconds the claim asserts for metadata-class calls (the endpoint's client is
constructed with `timeout=30` at `src/app.py` line 96). -/
theorem pr_images_metadata_timeout_is_30 :
    (pr_images "t" "o" "r" 1
      ⟨.resp 200 (.ok ⟨some "aaa", some "bl", some "bbb", some "hl", some "ti", some "u"⟩),
       .resp 200 (.ok ⟨some []⟩)⟩ emptyCache 0).calls =
      [⟨.prMeta, 30⟩, ⟨.compareRefs, 30⟩] ∧ (30 : Nat) ≠ 15 := by
  exact ⟨rfl, by decide⟩

/-- C9 (amended): every outbound call carries a bounded per-endpoint
timeout — 30 seconds for every call issued by `pr_images` and `pr_image`
(including the PR-metadata and compare fetches of `pr_images`), 15 seconds
for every call issued by `pr_comments`, `pr_comment_counts` and
`post_pr_comment`. -/
theorem outbound_call_timeouts :
    (∀ (token owner repo : String) (n : Int) (w : ImagesWorld) (cache : Cache ImagesResult)
       (now : Rat), ∀ c ∈ (pr_images token owner repo n w cache now).calls,
        c.timeout = 30) ∧
    (∀ (token : String) (w : ImageWorld) (b64decode : String → Option (List Nat)),
      ∀ c ∈ (pr_image token w b64decode).2, c.timeout = 30) ∧
    (∀ (token pathQuery : String) (w : Upstream (List CommentDoc)),
      ∀ c ∈ (pr_comments token pathQuery w).2, c.timeout = 15) ∧
    (∀ (token : String) (w : Upstream (List CommentDoc)),
      ∀ c ∈ (pr_comment_counts token w).2, c.timeout = 15) ∧
    (∀ (token : String) (payload : Except String JVal) (w : PostWorld),
      ∀ c ∈ (post_pr_comment token payload w).2, c.timeout = 15) := by
  refine ⟨?_, ?_, ?_, ?_, ?_⟩
  · intro token owner repo n w cache now c hc
    unfold pr_images at hc
    try dsimp only at hc
    repeat' split at hc
    all_goals
      try dsimp only at hc
    all_goals
      try simp only [List.mem_append, List.mem_cons, List.not_mem_nil, or_false, false_or] at hc
    all_goals
      first
        | exact hc.elim
        | (rcases hc with (rfl | rfl) | rfl <;> rfl)
  · intro token w b64decode c hc
    unfold pr_image pr_image_tier2 pr_image_tier3 at hc
    try dsimp only at hc
    repeat' split at hc
    all_goals
      try dsimp only at hc
    all_goals
      try simp only [List.mem_append, List.mem_cons, List.not_mem_nil, or_false, false_or] at hc
    all_goals
      first
        | exact hc.elim
        | (rcases hc with (rfl | rfl) | rfl <;> rfl)
  · intro token pathQuery w c hc
    unfold pr_comments at hc
    try dsimp only at hc
    repeat' split at hc
    all_goals
      try dsimp only at hc
    all_goals
      try simp only [List.mem_append, List.mem_cons, List.not_mem_nil, or_false, false_or] at hc
    all_goals
      first
        | exact hc.elim
        | (rcases hc with (rfl | rfl) | rfl <;> rfl)
  · intro token w c hc
    unfold pr_comment_counts at hc
    try dsimp only at hc
    repeat' split at hc
    all_goals
      try dsimp only at hc
    all_goals
      try simp only [List.mem_append, List.mem_cons, List.not_mem_nil, or_false, false_or] at hc
    all_goals
      first
        | exact hc.elim
        | (rcases hc with (rfl | rfl) | rfl <;> rfl)
  · intro token payload w c hc
    unfold post_pr_comment at hc
    try dsimp only at hc
    repeat' split at hc
    all_goals
      try dsimp only at hc
    all_goals
      try simp only [List.mem_append, List.mem_cons, List.not_mem_nil, or_false, false_or] at hc
    all_goals
      first
        | exact hc.elim
        | (rcases hc with (rfl | rfl) | rfl <;> rfl)

/-- Witness for C9 (amended): the metadata call of a concrete successful
`pr_images` run has timeout 30, and the comments-list call of a concrete
`pr_comments` run has timeout 15. -/
theorem outbound_call_timeouts_witness :
    (Call.mk .prMeta 30).timeout = 30 ∧ (Call.mk .commentsList 15).timeout = 15 := by
  refine ⟨?_, ?_⟩
  · exact outbound_call_timeouts.1 "t" "o" "r" 1
      ⟨.raise "x", .raise "y"⟩ emptyCache 0 ⟨.prMeta, 30⟩ (by decide)
  · exact outbound_call_timeouts.2.2.1 "t" "p" (.raise "x") ⟨.commentsList, 15⟩ (by decide)

/-- C10: `pr_comment_counts` never returns an error indicator — with no
token, with an upstream non-200 status, with a transport exception, or with
a body whose parse raises, the answer is the empty counts mapping
(`src/app.py` lines 297-298, 309-310, 320-321), and (beyond the trace of
attempted calls) such a run is indistinguishable from a successful run that
found zero comments. -/
theorem comment_counts_never_errors :
    (∀ w : Upstream (List CommentDoc), (pr_comment_counts "" w).1 = []) ∧
    (∀ token e : String, (pr_comment_counts token (.raise e)).1 = []) ∧
    (∀ (token : String) (st : Nat) (body : Except String (List CommentDoc)),
      st ≠ 200 → (pr_comment_counts token (.resp st body)).1 = []) ∧
    (∀ (token e : String) (st : Nat), (pr_comment_counts token (.resp st (.error e))).1 = []) ∧
    (∀ token : String,
      pr_comment_counts token (.resp 404 (.error "boom")) =
        pr_comment_counts token (.resp 200 (.ok []))) := by
  refine ⟨?_, ?_, ?_, ?_, ?_⟩
  · intro w
    rfl
  · intro token e
    by_cases htok : token = "" <;> simp [pr_comment_counts, htok]
  · intro token st body hst
    by_cases htok : token = "" <;> simp [pr_comment_counts, htok, hst]
  · intro token e st
    by_cases htok : token = "" <;> by_cases hst : st = 200 <;>
      simp [pr_comment_counts, htok, hst, tallyCounts]
  · intro token
    by_cases htok : token = "" <;> simp [pr_comment_counts, htok, tallyCounts]

/-- Witness for C10: a concrete 500 upstream status yields the empty counts
mapping. -/
theorem comment_counts_never_errors_witness :
    (pr_comment_counts "t" (.resp 500 (.ok [⟨some 1, some "b", some "u", some "c",
      none, some "a.png", none⟩]))).1 = [] := by
  exact comment_counts_never_errors.2.2.1 "t" 500 _ (by decide)

end VisualReview
